import Mathlib

/-!
Verification development for a two-marketplace product/order synchronization
system (Bunjang source marketplace, Shopify storefront).  The definitions
below are shallow embeddings of the JavaScript source:

* `SyncedProduct` — the Mongo ledger document (`syncedProduct.model.js`),
  with times modelled as `Int` milliseconds and nullable fields as `Option`.
* `acquireLock`, `cleanupStuckEntry`, `cleanupStuckProcessing` — the static
  methods of the model and of `cleanupJob.js` (a Mongo `findOneAndUpdate` /
  `updateMany` becomes a conditional functional update).
* `findAndRemoveDuplicates` — the duplicate-ledger cleanup of
  `cleanupJob.js` over an explicit collection-scan order.
* `checkBunjangOrderErrors`, `processCancellationForOrder` — the
  cancellation decision engine of `orderCancellationService.js`; the
  JavaScript `RegExp` built from the `*`-wildcard patterns is embedded as
  unanchored substring-chunk matching over character lists.
* `processShopifyOrderForBunjang` — the order orchestrator of
  `orderService.js`, with every external collaborator answer (DB lookup,
  Bunjang product detail, order-creation API, point balance, metafield
  lookup) supplied as explicit data, and the Shopify order-tag updates
  collected in the result.
* `handleProductSoldStatus` and its helpers — the inventory reconciliation
  engine of `inventoryService.js`, over an explicit world
  (ledger entry, Shopify product mirror, collaborator-call trace) with a
  failure-injection flag for the storefront product mutation.
-/

/-! ## String helpers: JavaScript `includes` and wildcard `RegExp.test` -/

/-- `leadsWith pat s` is true when `pat` is an initial segment of `s`
(character-list version of string prefix test). -/
def leadsWith : List Char → List Char → Bool
  | [], _ => true
  | _ :: _, [] => false
  | a :: as, b :: bs => a = b && leadsWith as bs

/-- Occurrence test: `listContainsSub pat s` is true when `pat` occurs as a
contiguous run inside `s`; embeds JavaScript `String.prototype.includes`. -/
def listContainsSub (pat : List Char) : List Char → Bool
  | [] => pat.isEmpty
  | b :: bs => leadsWith pat (b :: bs) || listContainsSub pat bs

/-- JavaScript `s.includes(pat)`. -/
def includesStr (s pat : String) : Bool :=
  listContainsSub pat.data s.data

/-- Drop through `s` until the first occurrence of `pat`; return the suffix
after that occurrence, or `none` when `pat` does not occur. -/
def dropAfterMatch (pat : List Char) : List Char → Option (List Char)
  | [] => if pat.isEmpty then some [] else none
  | b :: bs =>
      if leadsWith pat (b :: bs) then some (List.drop pat.length (b :: bs))
      else dropAfterMatch pat bs

/-- Split a wildcard pattern at each `*` into its literal chunks
(embeds `pattern.replace(/\*/g, '.*')` chunk structure). -/
def splitOnStar : List Char → List (List Char)
  | [] => [[]]
  | c :: rest =>
      if c = '*' then [] :: splitOnStar rest
      else
        match splitOnStar rest with
        | [] => [[c]]
        | g :: gs => (c :: g) :: gs

/-- Match literal chunks left to right with arbitrary gaps, unanchored. -/
def chunksMatch : List (List Char) → List Char → Bool
  | [], _ => true
  | c :: cs, s =>
      match dropAfterMatch c s with
      | some rest => chunksMatch cs rest
      | none => false

/-- Embeds `new RegExp(pattern.replace(/\*/g, '.*')).test(tag)` for the
literal-plus-`*` patterns used by the cancellation config: the chunks of the
pattern must occur in `tag` in order, with arbitrary gaps, unanchored. -/
def regexTestWildcard (pattern tag : String) : Bool :=
  chunksMatch (splitOnStar pattern.data) tag.data

/-! ## Ledger data model (`syncedProduct.model.js`) -/

/-- The `SyncedProduct` ledger document: the fields involved in locking,
sold-state reconciliation and cleanup.  Times are `Int` milliseconds since
epoch; Mongo `null`/absent is `Option.none`. -/
structure SyncedProduct where
  bunjangPid : String
  shopifyGid : Option String
  shopifyStatus : Option String
  processingStatus : String
  processingStartedAt : Option Int
  processingJobId : Option String
  processingLockExpiry : Option Int
  syncErrorMessage : Option String
  soldFrom : Option String
  soldAt : Option Int
  shopifySoldAt : Option Int
  bunjangSoldAt : Option Int
  pendingBunjangOrder : Bool
  bunjangQuantity : Int
  lastInventorySyncAt : Option Int
deriving DecidableEq, Repr

/-- `syncedProductSchema.methods.isLocked`: a lock is held when
`processingStatus === 'processing'`, the expiry is set, and `now` is before
the expiry. -/
def SyncedProduct.isLocked (p : SyncedProduct) (now : Int) : Bool :=
  if p.processingStatus ≠ "processing" then false
  else
    match p.processingLockExpiry with
    | none => false
    | some e => now < e

/-- The Mongo filter of `acquireLock`'s `findOneAndUpdate`
(`processingStatus ≠ 'processing'` or `processingLockExpiry < now`; a `$lt`
comparison against a missing/null date is false). -/
def acquireLockCondition (p : SyncedProduct) (now : Int) : Bool :=
  (p.processingStatus ≠ "processing") ||
    (match p.processingLockExpiry with
     | some e => e < now
     | none => false)

/-- `syncedProductSchema.statics.acquireLock`: a single conditional update
on the document with the given `bunjangPid`; returns the updated document,
or `none` when the filter does not match (lock not acquired). -/
def acquireLock (p : SyncedProduct) (bunjangPid jobId : String)
    (lockDurationMs now : Int) : Option SyncedProduct :=
  if p.bunjangPid = bunjangPid && acquireLockCondition p now then
    some { p with
            processingStatus := "processing"
            processingStartedAt := some now
            processingJobId := some jobId
            processingLockExpiry := some (now + lockDurationMs) }
  else none

/-- The Mongo filter of `cleanupStuckProcessing`'s `updateMany`:
`processingStatus = 'processing'` and `processingStartedAt < now - timeout`. -/
def cleanupMatches (p : SyncedProduct) (now timeoutMs : Int) : Bool :=
  (p.processingStatus = "processing") &&
    (match p.processingStartedAt with
     | some s => s < now - timeoutMs
     | none => false)

/-- Per-document effect of `cleanupStuckProcessing`: matching documents are
force-transitioned to `failed` with an explanatory message. -/
def cleanupStuckEntry (p : SyncedProduct) (now timeoutMs : Int) : SyncedProduct :=
  if cleanupMatches p now timeoutMs then
    { p with
        processingStatus := "failed"
        syncErrorMessage := some "Processing timeout - cleaned up by system" }
  else p

/-- `syncedProductSchema.statics.cleanupStuckProcessing` over the whole
collection (`updateMany` applies the per-document update to every match). -/
def cleanupStuckProcessing (db : List SyncedProduct) (now timeoutMs : Int) :
    List SyncedProduct :=
  db.map (fun p => cleanupStuckEntry p now timeoutMs)

/-! ## Duplicate-ledger cleanup (`cleanupJob.js`, `findAndRemoveDuplicates`) -/

/-- A ledger row as seen by the duplicate-cleanup aggregation: Mongo `_id`,
grouping key `bunjangPid`, and the `updatedAt` timestamp.  A database is a
list of rows in collection scan order (the order `$push` accumulates). -/
structure LedgerRow where
  rid : Nat
  bunjangPid : String
  updatedAt : Int
deriving DecidableEq, Repr

/-- The `ids` array the `$group`/`$push` aggregation accumulates for one
`bunjangPid`: the `_id`s of that group's rows in collection scan order. -/
def groupIds (db : List LedgerRow) (pid : String) : List Nat :=
  (db.filter (fun r => r.bunjangPid = pid)).map (fun r => r.rid)

/-- A row survives `findAndRemoveDuplicates` iff its group is not a
duplicate group, or it carries the first id of its group
(`const [keep, ...remove] = dup.ids; deleteMany({_id: {$in: remove}})`). -/
def survivesDuplicateCleanup (db : List LedgerRow) (r : LedgerRow) : Bool :=
  let g := groupIds db r.bunjangPid
  g.length ≤ 1 || g.head? = some r.rid

/-- `findAndRemoveDuplicates` of `cleanupJob.js`: for every `bunjangPid`
group with more than one row, keep the first pushed id and delete the rest. -/
def findAndRemoveDuplicates (db : List LedgerRow) : List LedgerRow :=
  db.filter (fun r => survivesDuplicateCleanup db r)

/-! ## Cancellation decision engine (`orderCancellationService.js`) -/

/-- `CANCELLATION_CONFIG.errorTagPatterns`. -/
def errorTagPatterns : List String :=
  [ "BunjangOrder-*_Error"
  , "PID-*-NotAvailable"
  , "PID-*-InsufficientStock"
  , "PID-*-NotFound"
  , "PID-*-CreateFail"
  , "PID-*-Exception"
  , "URGENT-InsufficientPoints"
  , "URGENT-AuthenticationError" ]

/-- The inner loop of `checkBunjangOrderErrors`: does some configured
pattern match this tag? -/
def matchesAnyErrorPattern (tag : String) : Bool :=
  errorTagPatterns.any (fun p => regexTestWildcard p tag)

/-- `checkBunjangOrderErrors(tags)`: `tags.some(...)` short-circuits at the
first tag that matches a pattern and pushes only that tag onto `errors`;
the pair is `(hasError, errorTypes)`. -/
def checkBunjangOrderErrors : List String → Bool × List String
  | [] => (false, [])
  | t :: ts =>
      if matchesAnyErrorPattern t then (true, [t])
      else checkBunjangOrderErrors ts

/-- The urgency scan of `handleOrderUpdate` in `orderCancellationHooks.js`
over the `errorTypes` list returned by `checkBunjangOrderErrors`. -/
def isUrgentErrorTag (tag : String) : Bool :=
  includesStr tag "URGENT-" || includesStr tag "InsufficientPoints" ||
    includesStr tag "AuthenticationError"

/-- `handleOrderUpdate`'s `isUrgent` — `errorTypes.some(...)`. -/
def isUrgentErrorTypes (errorTypes : List String) : Bool :=
  errorTypes.any isUrgentErrorTag

/-- A Shopify order line item as inspected by the cancellation engine
(GraphQL `lineItems` node: id, quantity, variant sku). -/
structure CancelLineItem where
  liId : String
  quantity : Nat
  sku : Option String
deriving DecidableEq, Repr

/-- The order data `processCancellationForOrder` fetches: cancellation
timestamp, tags, line items, and the `bunjang`/`order_ids` metafield
(already parsed from its JSON value; `none` = metafield absent or empty). -/
structure CancelOrder where
  oid : String
  cancelledAt : Option Int
  tags : List String
  lineItems : List CancelLineItem
  metafieldOrderIds : Option (List String)
deriving DecidableEq, Repr

/-- Step 5's per-item failure test:
`order.tags.some(tag => tag.includes('PID-'+pid+'-') && tag.includes('Error'))`. -/
def hasErrorTagForPid (tags : List String) (pid : String) : Bool :=
  tags.any (fun t => includesStr t ("PID-" ++ pid ++ "-") && includesStr t "Error")

/-- Step 4: `bunjangOrderIds.length > 0` from the parsed metafield. -/
def hasSuccessfulBunjangOrders (o : CancelOrder) : Bool :=
  (o.metafieldOrderIds.getD []).length > 0

/-- One iteration of step 5's partition loop over the line items. -/
def classifyStep (o : CancelOrder)
    (acc : List CancelLineItem × List CancelLineItem) (li : CancelLineItem) :
    List CancelLineItem × List CancelLineItem :=
  match li.sku with
  | some sku =>
      if leadsWith "BJ-".data sku.data then
        let pid := String.mk (sku.data.drop 3)
        if hasErrorTagForPid o.tags pid then (acc.1 ++ [li], acc.2)
        else if hasSuccessfulBunjangOrders o then (acc.1, acc.2 ++ [li])
        else acc
      else acc
  | none => acc

/-- Step 5 of `processCancellationForOrder`: partition the `BJ-`-sku line
items into `(failedLineItems, successfulLineItems)`, in item order.  An item
with an error tag for its pid is failed; otherwise it is successful only
when the order has recorded Bunjang order ids; other items land in neither
list. -/
def classifyLineItems (o : CancelOrder) :
    List CancelLineItem × List CancelLineItem :=
  o.lineItems.foldl (classifyStep o) ([], [])

/-- The action `processCancellationForOrder` decides on: the branch taken
and the variables it passes to the Shopify mutation. -/
inductive CancelAction where
  | alreadyCancelled
  | noErrors
  | cancelEntire (refund restock : Bool)
  | refundItems (refundLineItems : List (String × Nat × String))
  | noFailedItems
deriving DecidableEq, Repr

/-- `cancelFailedLineItems`'s refund input: one `(lineItemId, quantity,
restockType)` triple per item to cancel, always `NO_RESTOCK`. -/
def refundLineInputs (items : List CancelLineItem) :
    List (String × Nat × String) :=
  items.map (fun i => (i.liId, i.quantity, "NO_RESTOCK"))

/-- The decision procedure of `processCancellationForOrder` (steps 2-7),
with `optAutoRefund` standing for `options.autoRefund`
(`?? CANCELLATION_CONFIG.autoRefund`, whose configured value is `true`;
`restock` is hard-coded `false`). -/
def processCancellationForOrder (o : CancelOrder)
    (optAutoRefund : Option Bool) : CancelAction :=
  if o.cancelledAt.isSome then .alreadyCancelled
  else if !(checkBunjangOrderErrors o.tags).1 then .noErrors
  else
    let parts := classifyLineItems o
    if parts.1.length > 0 && parts.2.length > 0 then
      .refundItems (refundLineInputs parts.1)
    else if parts.1.length > 0 then
      .cancelEntire (optAutoRefund.getD true) false
    else .noFailedItems

/-! ## Order orchestrator (`orderService.js`, `processShopifyOrderForBunjang`) -/

/-- The Bunjang product detail the orchestrator consults
(`status || saleStatus`, `quantity || 0`). -/
structure BunjangProductDetails where
  status : String
  quantity : Nat
deriving DecidableEq, Repr

deriving instance DecidableEq for Except

/-- One Shopify line item together with the answers the external
collaborators give for it during this run: the resolved `bunjangPid`
(DB lookup or `bunjang_pid:` tag fallback; `none` = unresolvable, skipped),
the product-detail lookup, the order-creation call (`Except errorCode
(Option bunjangOrderId)`, where `ok none` is a response missing its id),
and the point-balance check after a success (`none` = fetch failed). -/
structure OrderItem where
  resolvedPid : Option String
  details : Option BunjangProductDetails
  createResult : Except String (Option String)
  pointBalance : Option Int
deriving DecidableEq, Repr

/-- What processing one line item contributes: the tags added to the
Shopify order, the created Bunjang order id (if any), and whether the
order-creation API was invoked at all. -/
structure ItemResult where
  tags : List String
  createdId : Option String
  createCalled : Bool
deriving DecidableEq, Repr

/-- `config.bunjang.lowBalanceThreshold || 1000000`. -/
def LOW_BALANCE_THRESHOLD : Int := 1000000

/-- `bunjangOrderIdentifier` — `'BunjangOrder-' + shopifyOrderId`. -/
def orderIdentifier (shopifyOrderId : String) : String :=
  "BunjangOrder-" ++ shopifyOrderId

/-- The per-line-item body of the orchestrator loop (steps 1-8):
skip unresolvable items without a tag; tag `NotFound` / `NotSelling` /
`NoStock` failures (status and stock checks skippable); call the creation
API and tag `Success` plus optional low-balance tags, or the error code, or
`InvalidResponse`.  Per-item failures never abort sibling items. -/
def processLineItem (skipStatusCheck : Bool) (identifier : String)
    (item : OrderItem) : ItemResult :=
  match item.resolvedPid with
  | none => ⟨[], none, false⟩
  | some pid =>
    match item.details with
    | none => ⟨[identifier ++ "_Error", "PID-" ++ pid ++ "-NotFound"], none, false⟩
    | some d =>
      if !skipStatusCheck && d.status ≠ "SELLING" then
        ⟨[identifier ++ "_Error", "PID-" ++ pid ++ "-NotSelling-" ++ d.status],
          none, false⟩
      else if !skipStatusCheck && d.quantity = 0 then
        ⟨[identifier ++ "_Error", "PID-" ++ pid ++ "-NoStock"], none, false⟩
      else
        match item.createResult with
        | .error code =>
            ⟨[identifier ++ "_Error", "PID-" ++ pid ++ "-" ++ code], none, true⟩
        | .ok none =>
            ⟨[identifier ++ "_Error", "PID-" ++ pid ++ "-InvalidResponse"],
              none, true⟩
        | .ok (some oid) =>
            let balanceTags :=
              match item.pointBalance with
              | some b =>
                  if b < LOW_BALANCE_THRESHOLD then
                    ["LowPointBalance", "Balance-" ++ toString b]
                  else []
              | none => []
            ⟨["BunjangOrder-" ++ oid, "PID-" ++ pid ++ "-Success"] ++ balanceTags,
              some oid, true⟩

/-- The outcome of one orchestrator run: the returned object plus the
observable effects (tags from the per-item `updateOrder` calls, tags of the
final metafield-update call, number of order-creation API invocations). -/
structure OrderProcessResult where
  success : Bool
  alreadyProcessed : Bool
  bunjangOrderIds : List String
  itemTags : List String
  finalTags : List String
  createCalls : Nat
  message : Option String
deriving DecidableEq, Repr, Inhabited

/-- Assembly of the orchestrator's return value and post-loop
metafield/tag update from the per-item results: collect the created
Bunjang order ids and return success iff at least one downstream order was
created (`bunjangOrderSuccessfullyCreatedOverall`). -/
def mkLoopResult (idr : String) (results : List ItemResult) :
    OrderProcessResult :=
  if results.filterMap (fun r => r.createdId) ≠ [] then
    ⟨true, false, results.filterMap (fun r => r.createdId),
      (results.map (fun r => r.tags)).flatten,
      ["BunjangOrderPlaced", idr,
        "Orders-" ++ toString (results.filterMap (fun r => r.createdId)).length],
      (results.filter (fun r => r.createCalled)).length, none⟩
  else
    ⟨false, false, [], (results.map (fun r => r.tags)).flatten, [],
      (results.filter (fun r => r.createCalled)).length,
      some "번개장터 주문 생성 실패"⟩

/-- The line-item loop of `processShopifyOrderForBunjang`: process every
item independently, then assemble the result. -/
def processOrderLoop (skipStatusCheck : Bool) (idr : String)
    (items : List OrderItem) : OrderProcessResult :=
  mkLoopResult idr (items.map (processLineItem skipStatusCheck idr))

/-- `processShopifyOrderForBunjang`.  `metafieldLookup` is the guarded
`getOrderMetafield(gid, 'bunjang', 'order_ids')` call: `ok (some ids)` when
the marker metafield exists with a (parsed) value, `ok none` when absent,
`error ()` when the lookup itself threw (caught and logged).  An order with
no line items throws a `ValidationError` (`Except.error`). -/
def processShopifyOrderForBunjang
    (metafieldLookup : Except Unit (Option (List String)))
    (skipStatusCheck : Bool) (shopifyOrderId : String)
    (items : List OrderItem) : Except Unit OrderProcessResult :=
  if items = [] then .error ()
  else
    match metafieldLookup with
    | .ok (some existingIds) =>
        .ok ⟨true, true, existingIds, [], [], 0, none⟩
    | _ =>
        .ok (processOrderLoop skipStatusCheck (orderIdentifier shopifyOrderId)
              items)

/-- Projection used to state facts about a run that is known to return
normally. -/
def orderRunResult (r : Except Unit OrderProcessResult) : OrderProcessResult :=
  match r with
  | .ok res => res
  | .error _ => default

/-- The created-id contribution of a list of items. -/
def createdIdsOf (skipStatusCheck : Bool) (identifier : String)
    (l : List OrderItem) : List String :=
  l.filterMap (fun i => (processLineItem skipStatusCheck identifier i).createdId)

/-! ## Inventory reconciliation engine (`inventoryService.js`) -/

/-- The storefront-side product mirror the engine mutates
(title / status / tags, as read and written through GraphQL). -/
structure ShopifyProduct where
  title : String
  status : String
  tags : List String
deriving DecidableEq, Repr

/-- A collaborator call the engine issues against the storefront. -/
inductive CollabCall where
  | updateInventoryLevel (quantity : Int)
  | updateProduct (title status : String) (tags : List String)
deriving DecidableEq, Repr

/-- The world an inventory-engine operation acts on: the ledger entry, the
Shopify product, and the trace of collaborator calls made so far. -/
structure InvWorld where
  entry : SyncedProduct
  product : ShopifyProduct
  calls : List CollabCall
deriving DecidableEq, Repr

/-- `syncBunjangInventoryToShopify(bunjangPid, quantity)`: returns `false`
without any mutation when the ledger entry has no linked `shopifyGid`;
otherwise issues the inventory-level call and records
`bunjangQuantity`/`lastInventorySyncAt` on the ledger entry. -/
def syncBunjangInventoryToShopify (w : InvWorld) (quantity : Int)
    (now : Int) : InvWorld × Bool :=
  match w.entry.shopifyGid with
  | none => (w, false)
  | some _ =>
      ({ entry := { w.entry with
                      bunjangQuantity := quantity
                      lastInventorySyncAt := some now }
         product := w.product
         calls := w.calls ++ [.updateInventoryLevel quantity] }, true)

/-- `markProductAsSoldOut(shopifyGid, bunjangPid)`: zero the inventory,
prefix the title with `[SOLD OUT]` unless already present, and update the
product to `DRAFT` with the sold-out tags.  `mutOk = false` injects a
failure of the storefront product mutation (the call throws); the error
value carries the world at throw time. -/
def markProductAsSoldOut (w : InvWorld) (mutOk : Bool) (now : Int) :
    Except InvWorld InvWorld :=
  let w1 := (syncBunjangInventoryToShopify w 0 now).1
  let newTitle :=
    if includesStr w1.product.title "[SOLD OUT]" then w1.product.title
    else "[SOLD OUT] " ++ w1.product.title
  if mutOk then
    .ok { w1 with
            product := ⟨newTitle, "DRAFT", ["sold_out", "sold_both_platforms"]⟩
            calls := w1.calls ++
              [.updateProduct newTitle "DRAFT" ["sold_out", "sold_both_platforms"]] }
  else .error w1

/-- `markProductAsDraft(shopifyGid, bunjangPid, platform)`: zero the
inventory; for a Bunjang-only sale prefix the title with the
sold-on-Bunjang marker and add the `sold_bunjang_only` tag (dedup via
`new Set`), then update the product to `DRAFT`. -/
def markProductAsDraft (w : InvWorld) (platform : String) (mutOk : Bool)
    (now : Int) : Except InvWorld InvWorld :=
  let w1 := (syncBunjangInventoryToShopify w 0 now).1
  let doPrefix :=
    platform = "bunjang" && !includesStr w1.product.title "[번개장터 판매완료]"
  let newTitle :=
    if doPrefix then "[번개장터 판매완료] " ++ w1.product.title
    else w1.product.title
  let newTags :=
    (if doPrefix then w1.product.tags ++ ["sold_bunjang_only"]
     else w1.product.tags).eraseDups
  if mutOk then
    .ok { w1 with
            product := ⟨newTitle, "DRAFT", newTags⟩
            calls := w1.calls ++ [.updateProduct newTitle "DRAFT" newTags] }
  else .error w1

/-- The result object `handleProductSoldStatus` returns. -/
structure HandleResult where
  action : Option String
  success : Bool
  message : String
deriving DecidableEq, Repr

/-- `handleProductSoldStatus(bunjangPid, shopifyGid, soldFrom)`: dispatch on
the `soldFrom` argument.  `'both'` marks the product sold out and records
`soldFrom='both'`; `'bunjang'` drafts the product and records
`soldFrom='bunjang'`; `'shopify'` only zeroes the availability and sets
`pendingBunjangOrder` (no `soldFrom` write, listing stays visible); any
other value is reported as unknown.  A thrown storefront mutation
propagates (`Except.error`) before any ledger save of the sale. -/
def handleProductSoldStatus (w : InvWorld) (soldFrom : String)
    (mutOk : Bool) (now : Int) :
    Except InvWorld (InvWorld × HandleResult) :=
  if soldFrom = "both" then
    match markProductAsSoldOut w mutOk now with
    | .error w' => .error w'
    | .ok w2 =>
        .ok ({ w2 with
                 entry := { w2.entry with
                              shopifyStatus := some "SOLD_OUT"
                              soldFrom := some "both"
                              soldAt := some now } },
             ⟨some "marked_sold_out", true,
               "Product marked as SOLD OUT (sold on both platforms)"⟩)
  else if soldFrom = "bunjang" then
    match markProductAsDraft w "bunjang" mutOk now with
    | .error w' => .error w'
    | .ok w2 =>
        .ok ({ w2 with
                 entry := { w2.entry with
                              shopifyStatus := some "DRAFT"
                              soldFrom := some "bunjang"
                              soldAt := some now
                              bunjangSoldAt := some now } },
             ⟨some "marked_draft_bunjang", true,
               "Product marked as DRAFT (sold only on Bunjang)"⟩)
  else if soldFrom = "shopify" then
    let w1 := (syncBunjangInventoryToShopify w 0 now).1
    .ok ({ w1 with
             entry := { w1.entry with
                          pendingBunjangOrder := true
                          shopifySoldAt := some now } },
         ⟨some "pending_bunjang_order", true, "Waiting for Bunjang order creation"⟩)
  else
    .ok (w, ⟨none, false, "Unknown sold source"⟩)

/-- The world after a normally-returning `handleProductSoldStatus` run. -/
def afterWorld (r : Except InvWorld (InvWorld × HandleResult)) :
    Option InvWorld :=
  match r with
  | .ok pr => some pr.1
  | .error _ => none

/-! ## Concrete fixtures used by witnesses and counterexamples -/

/-- An idle, unlocked ledger entry. -/
def entry0 : SyncedProduct :=
  ⟨"342351629", some "gid://shopify/Product/7001", some "ACTIVE", "idle",
    none, none, none, none, none, none, none, none, false, 1, none⟩

/-- `entry0` after a successful lock acquisition at time 100 with TTL 60000. -/
def entry0Locked : SyncedProduct :=
  { entry0 with
      processingStatus := "processing"
      processingStartedAt := some 100
      processingJobId := some "job-1"
      processingLockExpiry := some 60100 }

/-- A processing entry whose `processingStartedAt` is older than the sweep
timeout while its `processingLockExpiry` is still in the future
(a lock taken with a TTL longer than the sweep timeout). -/
def pStuckFixture : SyncedProduct :=
  ⟨"777", none, none, "processing", some 0, some "job-9", some 100,
    none, none, none, none, none, false, 1, none⟩

/-- Duplicate-group rows sharing one `bunjangPid`, in collection scan
order: the first-scanned row is the older one. -/
def dupRowOld : LedgerRow := ⟨1, "342351629", 0⟩

/-- The more recently updated duplicate row, scanned second. -/
def dupRowNew : LedgerRow := ⟨2, "342351629", 100⟩

/-- An order with one failed `BJ-` line item, one successful one, a
recorded Bunjang order id, and matching error tags. -/
def oRefundFixture : CancelOrder :=
  ⟨"gid://shopify/Order/9001", none,
    ["BunjangOrder-9001_Error", "PID-100-SomeError"],
    [⟨"li1", 1, some "BJ-100"⟩, ⟨"li2", 2, some "BJ-200"⟩],
    some ["B1"]⟩

/-- A line item whose Bunjang order creation succeeds (order id `B-1`). -/
def itemSuccessA : OrderItem :=
  ⟨some "100", some ⟨"SELLING", 1⟩, .ok (some "B-1"), some 5000000⟩

/-- A line item whose source listing is not found. -/
def itemNotFoundB : OrderItem := ⟨some "200", none, .ok none, none⟩

/-- A second line item whose Bunjang order creation succeeds. -/
def itemSuccessC : OrderItem :=
  ⟨some "300", some ⟨"SELLING", 2⟩, .ok (some "B-3"), none⟩

/-- A world whose ledger entry has `soldFrom = null` and an active,
visible storefront listing. -/
def wBaseFixture : InvWorld :=
  ⟨entry0, ⟨"Cool Jacket", "ACTIVE", ["k-fashion"]⟩, []⟩

/-- The world at throw time when the storefront mutation of the `both`
branch fails on `wBaseFixture` at time 5 (inventory already zeroed,
no ledger sale recorded). -/
def wBaseErrFixture : InvWorld :=
  ⟨{ entry0 with bunjangQuantity := 0, lastInventorySyncAt := some 5 },
    ⟨"Cool Jacket", "ACTIVE", ["k-fashion"]⟩,
    [.updateInventoryLevel 0]⟩

/-- A world already in the `both` terminal state: ledger sold on both
platforms at time 1, storefront drafted and title-flagged sold out. -/
def wTerminalFixture : InvWorld :=
  ⟨⟨"100", some "gid://shopify/Product/7001", some "SOLD_OUT", "idle",
      none, none, none, none, some "both", some 1, none, none, false, 0, some 1⟩,
    ⟨"[SOLD OUT] Cool Jacket", "DRAFT", ["sold_out", "sold_both_platforms"]⟩,
    []⟩

/-! ## Theorems -/

/-- Claim C1: `acquireLock(sourcePid, jobId, ttl)` returns a ledger entry
only when no valid lock exists on that entry (`processingStatus` is not
`processing`, or the stored `processingLockExpiry` is already in the past);
on success it sets `processingStatus = processing`,
`processingJobId = jobId` and `processingLockExpiry = now + ttl` in the one
conditional update, and it returns `null` otherwise. -/
theorem acquireLock_spec (p : SyncedProduct) (jobId : String) (ttl now : Int) :
    (∀ q, acquireLock p p.bunjangPid jobId ttl now = some q →
      ((p.processingStatus ≠ "processing" ∨
          ∃ e, p.processingLockExpiry = some e ∧ e < now) ∧
        q.processingStatus = "processing" ∧
        q.processingJobId = some jobId ∧
        q.processingLockExpiry = some (now + ttl))) ∧
    ((p.processingStatus = "processing" ∧
        (∀ e, p.processingLockExpiry = some e → ¬ e < now)) →
      acquireLock p p.bunjangPid jobId ttl now = none) := by
  constructor
  · intro q hq
    unfold acquireLock at hq
    split at hq
    case isFalse => exact absurd hq (by simp)
    case isTrue hc =>
      have hc2 : acquireLockCondition p now = true := by
        simpa using hc
      injection hq with hq'
      subst hq'
      refine ⟨?_, rfl, rfl, rfl⟩
      unfold acquireLockCondition at hc2
      rw [Bool.or_eq_true] at hc2
      rcases hc2 with h | h
      · exact Or.inl (by simpa using h)
      · refine Or.inr ?_
        cases he : p.processingLockExpiry with
        | none => rw [he] at h; simp at h
        | some e =>
            rw [he] at h
            exact ⟨e, rfl, by simpa using h⟩
  · rintro ⟨hstat, hexp⟩
    unfold acquireLock
    rw [if_neg]
    intro hc
    have hc2 : acquireLockCondition p now = true := by simpa using hc
    unfold acquireLockCondition at hc2
    rw [Bool.or_eq_true] at hc2
    rcases hc2 with h | h
    · exact absurd hstat (by simpa using h)
    · cases he : p.processingLockExpiry with
      | none => rw [he] at h; simp at h
      | some e =>
          rw [he] at h
          exact hexp e he (by simpa using h)

/-- Witness for C1: on the idle entry `entry0` at `now = 100` with TTL
60000, the acquisition succeeds and sets the lock fields. -/
theorem acquireLock_spec_witness :
    (entry0.processingStatus ≠ "processing" ∨
        ∃ e, entry0.processingLockExpiry = some e ∧ e < 100) ∧
      entry0Locked.processingStatus = "processing" ∧
      entry0Locked.processingJobId = some "job-1" ∧
      entry0Locked.processingLockExpiry = some (100 + 60000) :=
  (acquireLock_spec entry0 "job-1" 60000 100).1 entry0Locked (by decide)

/-- The per-entry sweep is idempotent: a swept entry has
`processingStatus = failed` and no longer matches the filter. -/
theorem cleanupStuckEntry_idem (p : SyncedProduct) (now t : Int) :
    cleanupStuckEntry (cleanupStuckEntry p now t) now t =
      cleanupStuckEntry p now t := by
  by_cases h : cleanupMatches p now t = true
  · simp only [cleanupStuckEntry, h, if_true]
    rw [if_neg]
    simp [cleanupMatches]
  · simp [cleanupStuckEntry, h]

/-- Counterexample for C6: the sweeper keys on `processingStartedAt`, not
on `processingLockExpiry`, so it modifies `pStuckFixture` at `now = 50`
with timeout 10 even though its `processingLockExpiry = 100` is still in
the future — refuting "never modifies an entry whose processingLockExpiry
is still in the future". -/
theorem cleanupStuck_counterexample :
    cleanupStuckEntry pStuckFixture 50 10 ≠ pStuckFixture ∧
      pStuckFixture.processingLockExpiry = some 100 ∧ (50 : Int) < 100 := by
  decide

/-- Claim C6 (amended): the stuck-lock sweeper is idempotent, and it
force-transitions to `failed`, with an explanatory error message, exactly
the entries with `processingStatus = processing` whose
`processingStartedAt` lies more than the timeout in the past — it can,
however, modify an entry whose `processingLockExpiry` is still in the
future when the lock TTL exceeds the sweep timeout. -/
theorem cleanupStuck_amended (now t : Int) :
    (∀ db, cleanupStuckProcessing (cleanupStuckProcessing db now t) now t =
        cleanupStuckProcessing db now t) ∧
    (∀ p, cleanupMatches p now t = false → cleanupStuckEntry p now t = p) ∧
    (∀ p, cleanupMatches p now t = true →
        cleanupStuckEntry p now t =
          { p with
              processingStatus := "failed"
              syncErrorMessage :=
                some "Processing timeout - cleaned up by system" }) := by
  refine ⟨?_, ?_, ?_⟩
  · intro db
    simp only [cleanupStuckProcessing, List.map_map]
    exact List.map_congr_left (fun p _ => cleanupStuckEntry_idem p now t)
  · intro p h
    simp [cleanupStuckEntry, h]
  · intro p h
    simp [cleanupStuckEntry, h]

/-- Witness for C6 (amended): the matching entry `pStuckFixture` is
force-transitioned to `failed` with the explanatory message. -/
theorem cleanupStuck_amended_witness :
    cleanupStuckEntry pStuckFixture 50 10 =
      { pStuckFixture with
          processingStatus := "failed"
          syncErrorMessage := some "Processing timeout - cleaned up by system" } :=
  (cleanupStuck_amended 50 10).2.2 pStuckFixture (by decide)

/-- Claim C9 (code bug): on a duplicate group scanned as
`[dupRowOld, dupRowNew]`, `findAndRemoveDuplicates` keeps the
first-scanned row and deletes `dupRowNew` even though `dupRowNew` is the
most recently updated row — the code's own comment (and the spec) say the
most recent row is the one to keep. -/
theorem findAndRemoveDuplicates_keeps_first_not_most_recent :
    findAndRemoveDuplicates [dupRowOld, dupRowNew] = [dupRowOld] ∧
      dupRowOld.updatedAt < dupRowNew.updatedAt := by
  decide

/-- `checkBunjangOrderErrors` computes `tags.some` short-circuited at the
first matching tag, which is also the only tag pushed onto `errors`. -/
theorem checkBunjangOrderErrors_eq (tags : List String) :
    checkBunjangOrderErrors tags =
      (tags.any matchesAnyErrorPattern,
        (tags.find? matchesAnyErrorPattern).toList) := by
  induction tags with
  | nil => rfl
  | cons t ts ih =>
      by_cases h : matchesAnyErrorPattern t
      · simp [checkBunjangOrderErrors, h, List.find?_cons_of_pos]
      · simp [checkBunjangOrderErrors, h, List.find?_cons_of_neg, ih]

/-- Claim C10: `checkBunjangOrderErrors` returns `hasError = true` iff
some tag matches one of the configured error-tag patterns, but the
returned `errorTypes` list is at most a singleton — the first matching tag
in array order — so the urgency check of `handleOrderUpdate` only ever
inspects that first matching tag. -/
theorem checkBunjangOrderErrors_spec (tags : List String) :
    ((checkBunjangOrderErrors tags).1 = true ↔
        ∃ t ∈ tags, matchesAnyErrorPattern t = true) ∧
    (checkBunjangOrderErrors tags).2 =
        (tags.find? matchesAnyErrorPattern).toList ∧
    (checkBunjangOrderErrors tags).2.length ≤ 1 ∧
    isUrgentErrorTypes (checkBunjangOrderErrors tags).2 =
      (match tags.find? matchesAnyErrorPattern with
       | some t => isUrgentErrorTag t
       | none => false) := by
  have h := checkBunjangOrderErrors_eq tags
  refine ⟨?_, ?_, ?_, ?_⟩
  · rw [h]
    simp [List.any_eq_true]
  · rw [h]
  · rw [h]
    cases tags.find? matchesAnyErrorPattern <;> simp
  · rw [h]
    cases tags.find? matchesAnyErrorPattern <;>
      simp [isUrgentErrorTypes]

/-- Claim C2: when the `bunjang`/`order_ids` metafield already exists with
a value, `processShopifyOrderForBunjang` short-circuits before processing
any line item — it makes no order-creation call, adds no tags, and returns
the already-recorded downstream order ids — so re-delivering the same
storefront-order event after successful processing creates no second
downstream order. -/
theorem processOrder_shortCircuit (skip : Bool) (oid : String)
    (existingIds : List String) (items : List OrderItem) (hne : items ≠ []) :
    processShopifyOrderForBunjang (.ok (some existingIds)) skip oid items =
      .ok ⟨true, true, existingIds, [], [], 0, none⟩ := by
  simp [processShopifyOrderForBunjang, hne]

/-- Witness for C2: with the marker metafield holding `["9001"]`, a
re-delivered order containing an item that would otherwise succeed is
skipped without any creation call. -/
theorem processOrder_shortCircuit_witness :
    processShopifyOrderForBunjang (.ok (some ["9001"])) false "555"
        [itemSuccessA] = .ok ⟨true, true, ["9001"], [], [], 0, none⟩ :=
  processOrder_shortCircuit false "555" ["9001"] [itemSuccessA] (by decide)

/-- `syncBunjangInventoryToShopify` never touches `soldFrom`. -/
theorem syncInventory_preserves_soldFrom (w : InvWorld) (q now : Int) :
    ((syncBunjangInventoryToShopify w q now).1).entry.soldFrom =
      w.entry.soldFrom := by
  unfold syncBunjangInventoryToShopify
  split <;> rfl

/-- A failed storefront mutation in `markProductAsSoldOut` throws before
any ledger write of the sale. -/
theorem markSoldOut_error_soldFrom (w : InvWorld) (mutOk : Bool) (now : Int)
    (w' : InvWorld) (h : markProductAsSoldOut w mutOk now = .error w') :
    w'.entry.soldFrom = w.entry.soldFrom := by
  unfold markProductAsSoldOut at h
  split at h
  · exact absurd h (by simp)
  · injection h with h'
    subst h'
    exact syncInventory_preserves_soldFrom w 0 now

/-- A failed storefront mutation in `markProductAsDraft` throws before any
ledger write of the sale. -/
theorem markDraft_error_soldFrom (w : InvWorld) (platform : String)
    (mutOk : Bool) (now : Int) (w' : InvWorld)
    (h : markProductAsDraft w platform mutOk now = .error w') :
    w'.entry.soldFrom = w.entry.soldFrom := by
  unfold markProductAsDraft at h
  split at h
  · exact absurd h (by simp)
  · injection h with h'
    subst h'
    exact syncInventory_preserves_soldFrom w 0 now

/-- Claim C8: for every sold-status transition, if the storefront mutation
(status/title/tag update) throws, `handleProductSoldStatus` propagates the
error and the ledger's `soldFrom` field is left unchanged — the engine
never records a sale it could not reflect on the storefront side. -/
theorem handleSold_mutation_failure_soldFrom (w : InvWorld) (origin : String)
    (mutOk : Bool) (now : Int) (w' : InvWorld)
    (h : handleProductSoldStatus w origin mutOk now = .error w') :
    w'.entry.soldFrom = w.entry.soldFrom := by
  unfold handleProductSoldStatus at h
  split_ifs at h
  · cases hm : markProductAsSoldOut w mutOk now with
    | error we =>
        rw [hm] at h
        injection h with h'
        subst h'
        exact markSoldOut_error_soldFrom w mutOk now we hm
    | ok w2 => rw [hm] at h; exact absurd h (by simp)
  · cases hm : markProductAsDraft w "bunjang" mutOk now with
    | error we =>
        rw [hm] at h
        injection h with h'
        subst h'
        exact markDraft_error_soldFrom w "bunjang" mutOk now we hm
    | ok w2 => rw [hm] at h; exact absurd h (by simp)

/-- Witness for C8: on `wBaseFixture` the `both` transition with a failing
storefront mutation throws with the inventory already zeroed but
`soldFrom` unchanged. -/
theorem handleSold_mutation_failure_soldFrom_witness :
    wBaseErrFixture.entry.soldFrom = wBaseFixture.entry.soldFrom :=
  handleSold_mutation_failure_soldFrom wBaseFixture "both" false 5
    wBaseErrFixture (by decide)

/-- Counterexample for C5: on a ledger entry with `soldFrom = null`, the
`shopify` branch of `handleProductSoldStatus` succeeds but leaves
`soldFrom` at `null` — it is never set to the storefront value, contrary
to the claim. -/
theorem handleSold_shopify_counterexample :
    (afterWorld (handleProductSoldStatus wBaseFixture "shopify" true 5)).map
        (fun w => w.entry.soldFrom) = some none ∧
      (afterWorld (handleProductSoldStatus wBaseFixture "shopify" true 5)).map
        (fun w => w.entry.soldFrom) ≠ some (some "shopify") ∧
      wBaseFixture.entry.soldFrom = none := by
  decide

/-- Claim C5 (amended): for every ledger entry with `soldFrom = null` and
a linked storefront product, the `shopify` branch zeroes the storefront
availability while leaving the listing untouched (hence visible), sets
`pendingBunjangOrder = true` and `shopifySoldAt`, and leaves `soldFrom`
unchanged at `null` (the storefront value is never written). -/
theorem handleSold_shopify_amended (w : InvWorld) (mutOk : Bool) (now : Int)
    (g : String) (hsf : w.entry.soldFrom = none)
    (hgid : w.entry.shopifyGid = some g) :
    handleProductSoldStatus w "shopify" mutOk now =
      .ok ({ entry := { w.entry with
                          pendingBunjangOrder := true
                          shopifySoldAt := some now
                          bunjangQuantity := 0
                          lastInventorySyncAt := some now }
             product := w.product
             calls := w.calls ++ [.updateInventoryLevel 0] },
           ⟨some "pending_bunjang_order", true,
             "Waiting for Bunjang order creation"⟩) ∧
    ({ w.entry with
         pendingBunjangOrder := true
         shopifySoldAt := some now
         bunjangQuantity := 0
         lastInventorySyncAt := some now } : SyncedProduct).soldFrom = none := by
  obtain ⟨⟨pid, sgid, sstat, pstat, pstart, pjob, pexp, serr, sfrom, sat, ssat,
    bsat, pend, qty, linv⟩, ⟨ptitle, pstatus, ptags⟩, calls⟩ := w
  simp only at hsf hgid
  subst hsf hgid
  refine ⟨?_, rfl⟩
  simp [handleProductSoldStatus, syncBunjangInventoryToShopify]

/-- Witness for C5 (amended): the concrete run on `wBaseFixture`. -/
theorem handleSold_shopify_amended_witness :
    handleProductSoldStatus wBaseFixture "shopify" true 5 =
      .ok ({ entry := { wBaseFixture.entry with
                          pendingBunjangOrder := true
                          shopifySoldAt := some 5
                          bunjangQuantity := 0
                          lastInventorySyncAt := some 5 }
             product := wBaseFixture.product
             calls := wBaseFixture.calls ++ [.updateInventoryLevel 0] },
           ⟨some "pending_bunjang_order", true,
             "Waiting for Bunjang order creation"⟩) ∧
    ({ wBaseFixture.entry with
         pendingBunjangOrder := true
         shopifySoldAt := some 5
         bunjangQuantity := 0
         lastInventorySyncAt := some 5 } : SyncedProduct).soldFrom = none :=
  handleSold_shopify_amended wBaseFixture true 5 "gid://shopify/Product/7001"
    (by decide) (by decide)

/-- Counterexample for C7: re-invoking the handler with origin `both` on a
world already in the `both` terminal state is not a no-op — it issues two
more collaborator calls and rewrites `soldAt` — contrary to the claim that
the repeat invocation is detected from current state and does nothing. -/
theorem handleSold_terminal_counterexample :
    (afterWorld (handleProductSoldStatus wTerminalFixture "both" true 5)).map
        (fun w => w.calls.length) = some 2 ∧
      wTerminalFixture.calls.length = 0 ∧
      (afterWorld (handleProductSoldStatus wTerminalFixture "both" true 5)).map
        (fun w => w.entry.soldAt) = some (some 5) ∧
      wTerminalFixture.entry.soldAt = some 1 := by
  decide

/-- Claim C7 (amended): the handler performs no current-state check, so a
second `both` invocation on a terminal-state world repeats the storefront
mutation and the inventory call; the repeat converges — the storefront
product is left in exactly the same state (the sold-out title marker is
not duplicated) and the ledger keeps `soldFrom = both`, only the
`soldAt` / `lastInventorySyncAt` timestamps being refreshed. -/
theorem handleSold_terminal_repeat (w : InvWorld) (now : Int) (g : String)
    (hsf : w.entry.soldFrom = some "both")
    (hgid : w.entry.shopifyGid = some g)
    (hss : w.entry.shopifyStatus = some "SOLD_OUT")
    (hq : w.entry.bunjangQuantity = 0)
    (htitle : includesStr w.product.title "[SOLD OUT]" = true)
    (hstat : w.product.status = "DRAFT")
    (htags : w.product.tags = ["sold_out", "sold_both_platforms"]) :
    handleProductSoldStatus w "both" true now =
      .ok ({ entry := { w.entry with
                          soldAt := some now
                          lastInventorySyncAt := some now }
             product := w.product
             calls := w.calls ++
               [.updateInventoryLevel 0,
                .updateProduct w.product.title "DRAFT"
                  ["sold_out", "sold_both_platforms"]] },
           ⟨some "marked_sold_out", true,
             "Product marked as SOLD OUT (sold on both platforms)"⟩) := by
  obtain ⟨⟨pid, sgid, sstat, pstat, pstart, pjob, pexp, serr, sfrom, sat, ssat,
    bsat, pend, qty, linv⟩, ⟨ptitle, pstatus, ptags⟩, calls⟩ := w
  simp only at hsf hgid hss hq htitle hstat htags
  subst hsf hgid hss hq hstat htags
  simp [handleProductSoldStatus, markProductAsSoldOut,
    syncBunjangInventoryToShopify, htitle]

/-- Witness for C7 (amended): the concrete repeat run on
`wTerminalFixture`. -/
theorem handleSold_terminal_repeat_witness :
    handleProductSoldStatus wTerminalFixture "both" true 5 =
      .ok ({ entry := { wTerminalFixture.entry with
                          soldAt := some 5
                          lastInventorySyncAt := some 5 }
             product := wTerminalFixture.product
             calls := wTerminalFixture.calls ++
               [.updateInventoryLevel 0,
                .updateProduct wTerminalFixture.product.title "DRAFT"
                  ["sold_out", "sold_both_platforms"]] },
           ⟨some "marked_sold_out", true,
             "Product marked as SOLD OUT (sold on both platforms)"⟩) :=
  handleSold_terminal_repeat wTerminalFixture 5 "gid://shopify/Product/7001"
    (by decide) (by decide) (by decide) (by decide) (by decide) (by decide)
    (by decide)

/-- One loop step adds at most one item to the two partitions. -/
theorem classifyStep_length (o : CancelOrder)
    (acc : List CancelLineItem × List CancelLineItem) (li : CancelLineItem) :
    (classifyStep o acc li).1.length + (classifyStep o acc li).2.length ≤
      acc.1.length + acc.2.length + 1 := by
  cases hsku : li.sku with
  | none => simp [classifyStep, hsku]
  | some sku =>
      simp only [classifyStep, hsku]
      split_ifs <;> simp [List.length_append] <;> omega

/-- The partition never contains more items than the order has. -/
theorem classify_foldl_length (o : CancelOrder) (l : List CancelLineItem) :
    ∀ acc : List CancelLineItem × List CancelLineItem,
      (l.foldl (classifyStep o) acc).1.length +
          (l.foldl (classifyStep o) acc).2.length ≤
        acc.1.length + acc.2.length + l.length := by
  induction l with
  | nil => intro acc; simp
  | cons li rest ih =>
      intro acc
      have h1 := classifyStep_length o acc li
      have h2 := ih (classifyStep o acc li)
      simp only [List.foldl_cons, List.length_cons]
      omega

/-- `failedLineItems` and `successfulLineItems` together never exceed the
order's line items. -/
theorem classify_length (o : CancelOrder) :
    (classifyLineItems o).1.length + (classifyLineItems o).2.length ≤
      o.lineItems.length := by
  have h := classify_foldl_length o o.lineItems ([], [])
  simpa [classifyLineItems] using h

/-- Claim C3: for every order inspected by the cancellation engine (not
already cancelled, with at least one error tag): if every line item is
failed, the entire order is cancelled with refund and no restock; if the
failed items are a strict non-empty subset and at least one item
succeeded, a refund is issued for exactly the failed line items (each with
`NO_RESTOCK`) and only those, the order itself staying uncancelled. -/
theorem processCancellation_decision (o : CancelOrder)
    (hnc : o.cancelledAt = none)
    (herr : (checkBunjangOrderErrors o.tags).1 = true) :
    (((classifyLineItems o).1 = o.lineItems ∧ o.lineItems ≠ []) →
        processCancellationForOrder o none = .cancelEntire true false) ∧
    (((classifyLineItems o).1 ≠ [] ∧ (classifyLineItems o).2 ≠ []) →
        processCancellationForOrder o none =
          .refundItems (refundLineInputs (classifyLineItems o).1)) := by
  constructor
  · rintro ⟨hall, hne⟩
    have hlen := classify_length o
    rw [hall] at hlen
    have hsucc : (classifyLineItems o).2 = [] := by
      have hz : (classifyLineItems o).2.length = 0 := by omega
      exact List.length_eq_zero.mp hz
    have hfpos : 0 < (classifyLineItems o).1.length := by
      rw [hall]
      exact List.length_pos.mpr hne
    simp [processCancellationForOrder, hnc, herr, hsucc, hfpos]
  · rintro ⟨hf, hs⟩
    have hfpos : 0 < (classifyLineItems o).1.length := List.length_pos.mpr hf
    have hspos : 0 < (classifyLineItems o).2.length := List.length_pos.mpr hs
    simp [processCancellationForOrder, hnc, herr, hfpos, hspos]

/-- Witness for C3: on `oRefundFixture` (one failed item, one successful
item, a recorded Bunjang order id) the engine refunds exactly the failed
line item. -/
theorem processCancellation_decision_witness :
    processCancellationForOrder oRefundFixture none =
      .refundItems (refundLineInputs (classifyLineItems oRefundFixture).1) :=
  (processCancellation_decision oRefundFixture (by decide) (by decide)).2
    ⟨by decide, by decide⟩

/-- A line item whose source listing lookup comes back empty contributes
the `NotFound` tag pair and no created order id. -/
theorem processLineItem_notFound (skip : Bool) (idr pid : String)
    (it : OrderItem) (hres : it.resolvedPid = some pid)
    (hdet : it.details = none) :
    processLineItem skip idr it =
      ⟨[idr ++ "_Error", "PID-" ++ pid ++ "-NotFound"], none, false⟩ := by
  simp [processLineItem, hres, hdet]

/-- The loop's returned ids are exactly the created ids of its items. -/
theorem processOrderLoop_ids (skip : Bool) (idr : String)
    (items : List OrderItem) :
    (processOrderLoop skip idr items).bunjangOrderIds =
      createdIdsOf skip idr items := by
  have hkey :
      (items.map (processLineItem skip idr)).filterMap (fun r => r.createdId) =
        createdIdsOf skip idr items := by
    rw [createdIdsOf, List.filterMap_map]
    rfl
  unfold processOrderLoop mkLoopResult
  split
  · exact hkey
  · next hc =>
      rw [not_not] at hc
      rw [← hkey, hc]

/-- The loop returns success exactly when it created some order. -/
theorem processOrderLoop_success_iff (skip : Bool) (idr : String)
    (items : List OrderItem) :
    ((processOrderLoop skip idr items).success = true ↔
      (processOrderLoop skip idr items).bunjangOrderIds ≠ []) := by
  unfold processOrderLoop mkLoopResult
  split
  · next hc => simpa using hc
  · simp

/-- The loop's per-item tag trace is the concatenation of every item's
tags, in item order. -/
theorem processOrderLoop_itemTags (skip : Bool) (idr : String)
    (items : List OrderItem) :
    (processOrderLoop skip idr items).itemTags =
      ((items.map (processLineItem skip idr)).map (fun r => r.tags)).flatten := by
  unfold processOrderLoop mkLoopResult
  split <;> rfl

/-- On the non-short-circuit path the orchestrator runs the loop. -/
theorem processOrder_run (skip : Bool) (oid : String)
    (mc : Except Unit (Option (List String))) (items : List OrderItem)
    (hmc : mc = .ok none ∨ mc = .error ()) (hne : items ≠ []) :
    processShopifyOrderForBunjang mc skip oid items =
      .ok (processOrderLoop skip (orderIdentifier oid) items) := by
  rcases hmc with rfl | rfl <;> simp [processShopifyOrderForBunjang, hne]

/-- Claim C4: line items are processed independently — an item whose
source listing is not found is tagged `PID-<id>-NotFound` while the
remaining items are still processed (the created ids are exactly those of
the sibling items) — and the returned result has `success = true` iff at
least one line item's downstream order was created. -/
theorem processOrder_partial_independence (skip : Bool) (oid pid : String)
    (mc : Except Unit (Option (List String))) (l₁ l₂ : List OrderItem)
    (it : OrderItem) (hmc : mc = .ok none ∨ mc = .error ())
    (hres : it.resolvedPid = some pid) (hdet : it.details = none) :
    ("PID-" ++ pid ++ "-NotFound") ∈
        (orderRunResult
          (processShopifyOrderForBunjang mc skip oid (l₁ ++ it :: l₂))).itemTags ∧
    (orderRunResult
        (processShopifyOrderForBunjang mc skip oid (l₁ ++ it :: l₂))).bunjangOrderIds =
      createdIdsOf skip (orderIdentifier oid) l₁ ++
        createdIdsOf skip (orderIdentifier oid) l₂ ∧
    ((orderRunResult
        (processShopifyOrderForBunjang mc skip oid (l₁ ++ it :: l₂))).success = true ↔
      (orderRunResult
        (processShopifyOrderForBunjang mc skip oid (l₁ ++ it :: l₂))).bunjangOrderIds
        ≠ []) := by
  have hne : (l₁ ++ it :: l₂ : List OrderItem) ≠ [] := by simp
  have hrun := processOrder_run skip oid mc (l₁ ++ it :: l₂) hmc hne
  rw [hrun]
  have hit := processLineItem_notFound skip (orderIdentifier oid) pid it hres hdet
  refine ⟨?_, ?_, ?_⟩
  · rw [show orderRunResult
        (.ok (processOrderLoop skip (orderIdentifier oid) (l₁ ++ it :: l₂))) =
        processOrderLoop skip (orderIdentifier oid) (l₁ ++ it :: l₂) from rfl]
    rw [processOrderLoop_itemTags]
    refine List.mem_flatten.mpr
      ⟨(processLineItem skip (orderIdentifier oid) it).tags, ?_, ?_⟩
    · exact List.mem_map.mpr
        ⟨processLineItem skip (orderIdentifier oid) it,
          List.mem_map.mpr ⟨it, by simp, rfl⟩, rfl⟩
    · rw [hit]
      simp
  · rw [show orderRunResult
        (.ok (processOrderLoop skip (orderIdentifier oid) (l₁ ++ it :: l₂))) =
        processOrderLoop skip (orderIdentifier oid) (l₁ ++ it :: l₂) from rfl]
    rw [processOrderLoop_ids]
    unfold createdIdsOf
    rw [List.filterMap_append]
    simp [hit]
  · exact processOrderLoop_success_iff skip (orderIdentifier oid)
      (l₁ ++ it :: l₂)

/-- Witness for C4: a three-item order whose middle item is `NotFound`
still creates the downstream orders of items 1 and 3 and returns success. -/
theorem processOrder_partial_independence_witness :
    ("PID-200-NotFound") ∈
        (orderRunResult
          (processShopifyOrderForBunjang (.ok none) false "555"
            ([itemSuccessA] ++ itemNotFoundB :: [itemSuccessC]))).itemTags ∧
    (orderRunResult
        (processShopifyOrderForBunjang (.ok none) false "555"
          ([itemSuccessA] ++ itemNotFoundB :: [itemSuccessC]))).bunjangOrderIds =
      createdIdsOf false (orderIdentifier "555") [itemSuccessA] ++
        createdIdsOf false (orderIdentifier "555") [itemSuccessC] ∧
    ((orderRunResult
        (processShopifyOrderForBunjang (.ok none) false "555"
          ([itemSuccessA] ++ itemNotFoundB :: [itemSuccessC]))).success = true ↔
      (orderRunResult
        (processShopifyOrderForBunjang (.ok none) false "555"
          ([itemSuccessA] ++ itemNotFoundB :: [itemSuccessC]))).bunjangOrderIds
        ≠ []) :=
  processOrder_partial_independence false "555" "200" (.ok none)
    [itemSuccessA] [itemSuccessC] itemNotFoundB (Or.inl rfl) (by decide)
    (by decide)
